import Mathlib

/-!
Verification of the Web-Monitor repository: a shallow embedding of its
monitoring, notification, retention and persistence logic, with theorems
checking the natural-language specification against the code.

Conventions of the embedding:
* Python `datetime` values are modelled as integers (or naturals) on an
  abstract timeline; every call to `datetime.now()` is a distinct explicit
  clock parameter, constrained only by monotonicity hypotheses.
* Network and database effects (`requests.get`, `engine.connect`, query
  execution, the SSL probe) are modelled by explicit outcome values that the
  checker functions consume, mirroring the `try/except` structure of the
  source.
* Byte strings are modelled as `List Nat` with every element `< 256`.
-/

namespace WebMonitor

/-- Enum `MonitorStatus` from `webmonitor/models/monitor.py`. -/
inductive MonitorStatus where
  | healthy
  | unhealthy
  | unknown
  | offline
deriving DecidableEq, Repr

/-- Enum `MonitorType` from `webmonitor/models/monitor.py`. -/
inductive MonitorType where
  | url
  | database
deriving DecidableEq, Repr

/-- Error message constants from `webmonitor/utils/errors.py`.  Messages that
the Python source builds with `str.format` take the formatted values as
arguments here. -/
def BASE_ERROR : String := "An unexpected error occurred during monitoring"

def CONNECTION_ERROR : String := "Failed to establish connection"

def TIMEOUT_ERROR (timeout : Nat) : String :=
  "Request timed out after " ++ toString timeout ++ " seconds"

def STATUS_CODE_ERROR (expected actual : Nat) : String :=
  "Expected status code " ++ toString expected ++ ", got " ++ toString actual

def CONTENT_ERROR : String := "Required content not found in response"

def SSL_ERROR : String := "SSL/TLS verification failed"

def QUERY_CONNECTION_ERROR : String := "Failed to execute query due to connection error"

def QUERY_EXECUTION_ERROR : String := "Failed to execute query"

/-- The fields of the `UrlMonitor` dataclass that `check_url` reads
(`webmonitor/models/monitor.py`). -/
structure UrlMonitor where
  url : String
  expected_status_code : Nat
  timeout_seconds : Nat
  check_ssl : Bool
  follow_redirects : Bool
  check_content : Option String
deriving DecidableEq, Repr

/-- Python truthiness of `monitor.check_content`: `None` and the empty string
are falsy, every other string is truthy. -/
def UrlMonitor.contentTruthy (m : UrlMonitor) : Bool :=
  match m.check_content with
  | none => false
  | some s => !s.isEmpty

/-- Outcome of the `requests.get` call in `check_url`, mirroring the
`try/except` arms of the source: a response with a status code and a body,
or one of the three caught exception classes. -/
inductive GetOutcome where
  | success (status_code : Nat) (body : String)
  | timeout
  | connectionError
  | otherError
deriving DecidableEq, Repr

/-- The effectful environment consumed by one run of `check_url`:
the HTTP outcome and the `has_ssl` field of `get_ssl_expiry`'s answer. -/
structure UrlWorld where
  get : GetOutcome
  ssl_has_ssl : Bool
deriving DecidableEq, Repr

/-- Entry `details['connection']`. -/
structure ConnectionDetail where
  connected : Bool
  message : Option String
deriving DecidableEq, Repr

/-- Entry `details['status_code']`. -/
structure StatusCodeDetail where
  expected : Nat
  actual : Nat
  message : Option String
deriving DecidableEq, Repr

/-- Entry `details['content']`. -/
structure ContentDetail where
  expected : Option String
  found : Bool
  message : Option String
deriving DecidableEq, Repr

/-- Entry `details['ssl']`; the expiry metadata returned on success is
abstracted away, only the branch taken is recorded. -/
structure SslDetail where
  has_ssl : Bool
deriving DecidableEq, Repr

/-- Entry `details['query']` of the database checker. -/
structure QueryDetail where
  executed : Bool
  message : Option String
deriving DecidableEq, Repr

/-- The `details` dictionary of a `MonitorResult`: the checkers only ever use
these five keys, each present or absent. -/
structure Details where
  connection : Option ConnectionDetail
  status_code : Option StatusCodeDetail
  content : Option ContentDetail
  ssl : Option SslDetail
  query : Option QueryDetail
deriving DecidableEq, Repr

/-- The fields of the `MonitorResult` dataclass that the claims are about;
identification and timing fields (`id`, `monitor_id`, `space_id`,
`timestamp`, `response_time_ms`) are tracked elsewhere. -/
structure MonitorResult where
  status : MonitorStatus
  failed_checks : Nat
  check_list : List String
  details : Details
deriving DecidableEq, Repr

/-- Head-occurrence check used to define Python's `in` operator on
strings: does `needle` occur at the head of `hay`? -/
def startsWith : List Char → List Char → Bool
  | [], _ => true
  | _ :: _, [] => false
  | a :: as, b :: bs => a = b && startsWith as bs

/-- Occurrence of `needle` anywhere in `hay` (Python `needle in hay`). -/
def containsSeq (needle : List Char) : List Char → Bool
  | [] => needle.isEmpty
  | h :: t => startsWith needle (h :: t) || containsSeq needle t

/-- Python's `needle in hay` on strings. -/
def strContains (needle hay : String) : Bool :=
  containsSeq needle.data hay.data

/-- Function `check_url` from `webmonitor/services/url_checker.py`, lines 26-129.
The accumulators `status`/`failed_checks`/`details` are threaded exactly as
the source mutates them; the `finally` block's `MonitorResult` construction
is the returned record. -/
def check_url (m : UrlMonitor) (w : UrlWorld) : MonitorResult :=
  let check_list := ["connection", "status_code"]
      ++ (if m.contentTruthy then ["content"] else [])
      ++ (if m.check_ssl then ["ssl"] else [])
  match w.get with
  | GetOutcome.success code body =>
      let status_code_detail : StatusCodeDetail :=
        if code ≠ m.expected_status_code then
          { expected := m.expected_status_code, actual := code,
            message := some (STATUS_CODE_ERROR m.expected_status_code code) }
        else
          { expected := m.expected_status_code, actual := code, message := none }
      let failed1 : Nat := if code ≠ m.expected_status_code then 1 else 0
      let status1 : MonitorStatus :=
        if code ≠ m.expected_status_code then MonitorStatus.unhealthy else MonitorStatus.healthy
      let contentFail : Bool :=
        m.contentTruthy && !(strContains (m.check_content.getD "") body)
      let content_detail : ContentDetail :=
        if contentFail then
          { expected := m.check_content, found := false, message := some CONTENT_ERROR }
        else
          { expected := m.check_content, found := true, message := none }
      let failed2 : Nat := failed1 + (if contentFail then 1 else 0)
      let status2 : MonitorStatus := if contentFail then MonitorStatus.unhealthy else status1
      let sslFail : Bool := m.check_ssl && !w.ssl_has_ssl
      let ssl_detail : Option SslDetail :=
        if m.check_ssl then some { has_ssl := w.ssl_has_ssl } else none
      let failed3 : Nat := failed2 + (if sslFail then 1 else 0)
      let status3 : MonitorStatus := if sslFail then MonitorStatus.unhealthy else status2
      { status := status3, failed_checks := failed3, check_list := check_list,
        details :=
          { connection := some { connected := true, message := none },
            status_code := some status_code_detail,
            content := some content_detail,
            ssl := ssl_detail,
            query := none } }
  | GetOutcome.timeout =>
      { status := MonitorStatus.unhealthy, failed_checks := 1, check_list := check_list,
        details :=
          { connection := some { connected := false,
                                 message := some (TIMEOUT_ERROR m.timeout_seconds) },
            status_code := none, content := none, ssl := none, query := none } }
  | GetOutcome.connectionError =>
      { status := MonitorStatus.unhealthy, failed_checks := 1, check_list := check_list,
        details :=
          { connection := some { connected := false, message := some CONNECTION_ERROR },
            status_code := none, content := none, ssl := none, query := none } }
  | GetOutcome.otherError =>
      { status := MonitorStatus.unhealthy, failed_checks := 1, check_list := check_list,
        details :=
          { connection := some { connected := false, message := some BASE_ERROR },
            status_code := none, content := none, ssl := none, query := none } }

/-- Stated from the spec's words, for comparison with `check_url`: the number
of checks that signalled failure in one run — `1` for the connection when the
GET fails, otherwise one per failing downstream check. -/
def spec_url_failed_count (m : UrlMonitor) (w : UrlWorld) : Nat :=
  match w.get with
  | GetOutcome.success code body =>
      (if code ≠ m.expected_status_code then 1 else 0)
      + (if m.contentTruthy && !(strContains (m.check_content.getD "") body) then 1 else 0)
      + (if m.check_ssl && !w.ssl_has_ssl then 1 else 0)
  | _ => 1

/-- Python `str.lower()` (ASCII case folding as `Char.toLower`).  Modelled
directly on `List Char` because it must evaluate inside the kernel. -/
def pyLower (s : String) : String :=
  ⟨s.data.map Char.toLower⟩

/-- Python `str.strip()`: drop leading and trailing whitespace.  (Modelled
directly on `List Char` because it must evaluate inside the kernel.) -/
def pyStrip (s : String) : String :=
  ⟨((s.data.dropWhile Char.isWhitespace).reverse.dropWhile Char.isWhitespace).reverse⟩

instance exceptStringDecEq : DecidableEq (Except String String) := fun a b =>
  match a, b with
  | Except.ok a, Except.ok b =>
      if h : a = b then isTrue (by rw [h])
      else isFalse (by intro hh; cases hh; exact h rfl)
  | Except.error a, Except.error b =>
      if h : a = b then isTrue (by rw [h])
      else isFalse (by intro hh; cases hh; exact h rfl)
  | Except.ok _, Except.error _ => isFalse (fun hh => Except.noConfusion hh)
  | Except.error _, Except.ok _ => isFalse (fun hh => Except.noConfusion hh)

/-- The fields of the `DatabaseMonitor` dataclass that `check_db` and
`test_connection_string` read (`webmonitor/models/monitor.py`).  `password`
is the decrypted password (the `password` property of the dataclass);
encryption is modelled separately. -/
structure DatabaseMonitor where
  db_type : String
  host : String
  port : Nat
  database : String
  username : String
  password : String
  connection_timeout_seconds : Nat
  query_timeout_seconds : Nat
  test_query : String
deriving DecidableEq, Repr

/-- Stdlib `urllib.parse.quote_plus`, a Python standard-library function outside
this repository, abstracted as the identity: the claims under verification
depend only on which dialect branch `test_connection_string` takes, never on
the percent-encoding of the password. -/
def quote_plus (s : String) : String := s

/-- Method `DatabaseMonitor.test_connection_string` from
`webmonitor/models/monitor.py`, lines 193-207.  The `raise ValueError`
branch for an unsupported dialect becomes the `Except.error` case. -/
def test_connection_string (m : DatabaseMonitor) : Except String String :=
  let encoded_password := quote_plus m.password
  if pyLower m.db_type = "postgresql" then
    Except.ok ("postgresql://" ++ m.username ++ ":" ++ encoded_password ++ "@"
      ++ m.host ++ ":" ++ toString m.port ++ "/" ++ m.database)
  else if pyLower m.db_type = "mysql" then
    Except.ok ("mysql+pymysql://" ++ m.username ++ ":" ++ encoded_password ++ "@"
      ++ m.host ++ ":" ++ toString m.port ++ "/" ++ m.database)
  else if pyLower m.db_type = "sqlserver" then
    Except.ok ("mssql+pyodbc://" ++ m.username ++ ":" ++ encoded_password ++ "@"
      ++ m.host ++ ":" ++ toString m.port ++ "/" ++ m.database
      ++ "?driver=ODBC+Driver+17+for+SQL+Server&TrustServerCertificate=yes")
  else
    Except.error ("Unsupported database type: " ++ m.db_type)

/-- The effectful environment consumed by one run of `check_db`:
whether `engine.connect()` raises, whether executing the test query raises
`SQLAlchemyError`, and the reported row count on success. -/
structure DbWorld where
  connect_fails : Bool
  query_fails : Bool
  row_count : Int
deriving DecidableEq, Repr

/-- Success message of the query check (the source interpolates the query
and row count into an f-string; the quotation marks around the query are
omitted here). -/
def QUERY_SUCCESS_MESSAGE (q : String) (row_count : Int) : String :=
  "Query " ++ q ++ " executed successfully. Rows affected: " ++ toString row_count

/-- Function `check_db` from `webmonitor/services/db_checker.py`, lines 21-96.
A `ValueError` from `test_connection_string` (raised while building the
engine) and a connection failure both land in the generic `except` arm,
which marks both checks failed (`failed_checks += 2`).  The test query is
only attempted when `monitor.test_query and monitor.test_query.strip()` is
truthy, i.e. when the query is nonempty after stripping whitespace. -/
def check_db (m : DatabaseMonitor) (w : DbWorld) : MonitorResult :=
  let check_list := ["connection", "query"]
  let bothFail : Details :=
    { connection := some { connected := false, message := some CONNECTION_ERROR },
      status_code := none, content := none, ssl := none,
      query := some { executed := false, message := some QUERY_CONNECTION_ERROR } }
  match test_connection_string m with
  | Except.error _ =>
      { status := MonitorStatus.unhealthy, failed_checks := 2,
        check_list := check_list, details := bothFail }
  | Except.ok _ =>
      if w.connect_fails then
        { status := MonitorStatus.unhealthy, failed_checks := 2,
          check_list := check_list, details := bothFail }
      else if pyStrip m.test_query ≠ "" then
        if w.query_fails then
          { status := MonitorStatus.unhealthy, failed_checks := 1,
            check_list := check_list,
            details :=
              { connection := some { connected := true, message := none },
                status_code := none, content := none, ssl := none,
                query := some { executed := false,
                                message := some QUERY_EXECUTION_ERROR } } }
        else
          { status := MonitorStatus.healthy, failed_checks := 0,
            check_list := check_list,
            details :=
              { connection := some { connected := true, message := none },
                status_code := none, content := none, ssl := none,
                query := some { executed := true,
                                message := some (QUERY_SUCCESS_MESSAGE m.test_query w.row_count) } } }
      else
        { status := MonitorStatus.healthy, failed_checks := 0,
          check_list := check_list,
          details :=
            { connection := some { connected := true, message := none },
              status_code := none, content := none, ssl := none, query := none } }

/-- Opening the connection fails: either the connection string cannot be
built (unsupported dialect) or `engine.connect()` raises. -/
def db_connection_fails (m : DatabaseMonitor) (w : DbWorld) : Prop :=
  (∃ e, test_connection_string m = Except.error e) ∨ w.connect_fails = true

/-- Function `should_send_notification` from `webmonitor/services/email_service.py`,
lines 143-149: with no previous result, notify iff the new result is
UNHEALTHY; otherwise notify iff the status changed. -/
def should_send_notification (result : MonitorResult)
    (previous_result : Option MonitorResult) : Bool :=
  match previous_result with
  | none => decide (result.status = MonitorStatus.unhealthy)
  | some prev => decide (prev.status ≠ result.status)

/-- The timestamp fields of `BaseMonitor`
(`webmonitor/models/monitor.py`, lines 29-32), with `datetime` values as
naturals on an abstract timeline. -/
structure MonitorTimes where
  created_at : Nat
  updated_at : Option Nat
  last_checked_at : Option Nat
  last_healthy_at : Option Nat
deriving DecidableEq, Repr

/-- Method `BaseMonitor.update_last_checked_at` (monitor.py lines 41-43).  The
method reads `datetime.now()` and delegates to `update_timestamp`, which
reads it again; the two adjacent reads are merged into `now`. -/
def update_last_checked_at (m : MonitorTimes) (now : Nat) : MonitorTimes :=
  { m with last_checked_at := some now, updated_at := some now }

/-- Method `BaseMonitor.update_last_healthy_at` (monitor.py lines 45-47). -/
def update_last_healthy_at (m : MonitorTimes) (now : Nat) : MonitorTimes :=
  { m with last_healthy_at := some now, updated_at := some now }

/-- The timestamp updates of `MonitorScheduler._run_monitor`
(`webmonitor/services/scheduler.py`, lines 64-68): after a probe completes,
`update_last_checked_at` runs at clock instant `t1` regardless of the
outcome, and when the result is HEALTHY, `update_last_healthy_at` runs at
the later instant `t2`. -/
def run_monitor_update (m : MonitorTimes) (status : MonitorStatus)
    (t1 t2 : Nat) : MonitorTimes :=
  let m1 := update_last_checked_at m t1
  if status = MonitorStatus.healthy then update_last_healthy_at m1 t2 else m1

/-- Stated from the spec's words: whenever `last_healthy_at` is set,
`last_healthy_at ≤ last_checked_at`. -/
def healthy_le_checked (m : MonitorTimes) : Prop :=
  ∀ h c, m.last_healthy_at = some h → m.last_checked_at = some c → h ≤ c

/-- A stored row of the `monitor_results` table, as far as the retention
engine reads it: its status and its timestamp.  The timeline is measured in
days, so `timedelta(days=k)` is the integer `k`. -/
structure StoredResult where
  status : MonitorStatus
  timestamp : Int
deriving DecidableEq, Repr

/-- The row filter of `_cleanup_results_by_status`:
`timestamp < cutoff_date AND status == status.value`. -/
def staleWith (cutoff : Int) (s : MonitorStatus) (r : StoredResult) : Bool :=
  decide (r.timestamp < cutoff) && decide (r.status = s)

/-- Delete from `l` the first `n` elements satisfying `p`, keeping everything
else: the effect of fetching a `LIMIT n` batch of matching rows and deleting
exactly those rows. -/
def dropMatches {α : Type} (p : α → Bool) : Nat → List α → List α
  | _, [] => []
  | 0, l => l
  | n + 1, x :: xs =>
      if p x then dropMatches p n xs else x :: dropMatches p (n + 1) xs

theorem dropMatches_length {α : Type} (p : α → Bool) :
    ∀ (n : Nat) (l : List α),
      (dropMatches p n l).length = l.length - min n (l.countP p)
  | _, [] => by simp [dropMatches]
  | 0, l => by cases l <;> simp [dropMatches]
  | n + 1, x :: xs => by
      by_cases hx : p x = true
      · have ih := dropMatches_length p n xs
        simp [dropMatches, hx, List.countP_cons]
        omega
      · have ih := dropMatches_length p (n + 1) xs
        have hcl : xs.countP p ≤ xs.length := List.countP_le_length p
        simp [dropMatches, hx, List.countP_cons]
        omega

/-- Method `ResultRepository._cleanup_results_by_status`
(`webmonitor/infrastructure/database/result_repository.py`, lines 126-158):
repeatedly fetch up to `batch_size` rows matching the predicate, delete that
batch, and stop when a fetched batch is empty or smaller than `batch_size`.
Returns the number of deleted rows and the remaining store. -/
def cleanup_results_by_status (p : StoredResult → Bool) (batch_size : Nat)
    (store : List StoredResult) : Nat × List StoredResult :=
  let batch_count := min batch_size (store.countP p)
  if batch_count = 0 then (0, store)
  else
    let store' := dropMatches p batch_count store
    if batch_count < batch_size then (batch_count, store')
    else
      let r := cleanup_results_by_status p batch_size store'
      (batch_count + r.1, r.2)
termination_by store.length
decreasing_by
  rw [dropMatches_length]
  have hcl : store.countP p ≤ store.length := List.countP_le_length p
  omega

/-- The statistics dictionary returned by `cleanup_old_results`.  The
source initialises `batches_processed` to 0 and never increments it; the
`errors` list can only be filled by a database exception, which the
in-memory model never raises, so it is a constant-`false` flag here. -/
structure CleanupStats where
  healthy_deleted : Nat
  unhealthy_deleted : Nat
  total_deleted : Nat
  batches_processed : Nat
  errors : Bool
deriving DecidableEq, Repr

/-- Method `ResultRepository.cleanup_old_results` (result_repository.py, lines
79-124): compute the two cutoffs, purge old HEALTHY rows, then old
UNHEALTHY and UNKNOWN rows, and return the statistics with the remaining
store. -/
def cleanup_old_results (store : List StoredResult) (now : Int)
    (keep_healthy_days keep_unhealthy_days : Int) (batch_size : Nat) :
    CleanupStats × List StoredResult :=
  let healthy_cutoff := now - keep_healthy_days
  let unhealthy_cutoff := now - keep_unhealthy_days
  let rh := cleanup_results_by_status
    (staleWith healthy_cutoff MonitorStatus.healthy) batch_size store
  let ru1 := cleanup_results_by_status
    (staleWith unhealthy_cutoff MonitorStatus.unhealthy) batch_size rh.2
  let ru2 := cleanup_results_by_status
    (staleWith unhealthy_cutoff MonitorStatus.unknown) batch_size ru1.2
  ({ healthy_deleted := rh.1,
     unhealthy_deleted := ru1.1 + ru2.1,
     total_deleted := rh.1 + (ru1.1 + ru2.1),
     batches_processed := 0,
     errors := false }, ru2.2)

/-- The dictionary returned by `ResultRepository.get_cleanup_preview`
(result_repository.py, lines 160-199). -/
structure CleanupPreview where
  healthy_to_delete : Nat
  unhealthy_to_delete : Nat
  total_to_delete : Nat
  total_results : Nat
  retention_after_cleanup : Nat
deriving DecidableEq, Repr

/-- Method `ResultRepository.get_cleanup_preview`: count, without deleting, the
healthy rows older than the healthy cutoff and the unhealthy-or-unknown
rows older than the unhealthy cutoff. -/
def get_cleanup_preview (store : List StoredResult) (now : Int)
    (keep_healthy_days keep_unhealthy_days : Int) : CleanupPreview :=
  let healthy_cutoff := now - keep_healthy_days
  let unhealthy_cutoff := now - keep_unhealthy_days
  let healthy_count := store.countP (staleWith healthy_cutoff MonitorStatus.healthy)
  let unhealthy_count := store.countP (fun r =>
    decide (r.timestamp < unhealthy_cutoff) &&
      (decide (r.status = MonitorStatus.unhealthy) || decide (r.status = MonitorStatus.unknown)))
  { healthy_to_delete := healthy_count,
    unhealthy_to_delete := unhealthy_count,
    total_to_delete := healthy_count + unhealthy_count,
    total_results := store.length,
    retention_after_cleanup := store.length - (healthy_count + unhealthy_count) }

/-- The data-cleanup configuration read by `DataCleanupJob.execute`. -/
structure DataCleanupConfig where
  enabled : Bool
  keep_healthy_results_days : Int
  keep_unhealthy_results_days : Int
deriving DecidableEq, Repr

/-- The `keep_healthy_results_days` value after the job's safety clamp:
values below 1 fall back to the default 7. -/
def effective_keep_healthy_days (cfg : DataCleanupConfig) : Int :=
  if cfg.keep_healthy_results_days < 1 then 7 else cfg.keep_healthy_results_days

/-- The `keep_unhealthy_results_days` value after the job's safety clamp:
values below 1 fall back to the default 30. -/
def effective_keep_unhealthy_days (cfg : DataCleanupConfig) : Int :=
  if cfg.keep_unhealthy_results_days < 1 then 30 else cfg.keep_unhealthy_results_days

/-- Method `DataCleanupJob.execute` (`webmonitor/jobs/data_cleanup_job.py`, lines
13-77), acting on the in-memory store: returns the job's boolean outcome
and the store afterwards.  The Python safety cap compares the exact ratio
`total_to_delete / total_results * 100 > 90`, which over the integers is
`10 * total_to_delete > 9 * total_results`. -/
def DataCleanupJob_execute (cfg : DataCleanupConfig)
    (store : List StoredResult) (now : Int) : Bool × List StoredResult :=
  if !cfg.enabled then (true, store)
  else
    let keep_healthy_days := effective_keep_healthy_days cfg
    let keep_unhealthy_days := effective_keep_unhealthy_days cfg
    let preview := get_cleanup_preview store now keep_healthy_days keep_unhealthy_days
    if preview.total_to_delete = 0 then (true, store)
    else if 0 < preview.total_results ∧
        9 * preview.total_results < 10 * preview.total_to_delete then
      (false, store)
    else
      let r := cleanup_old_results store now keep_healthy_days keep_unhealthy_days 1000
      if r.1.errors then (false, r.2) else (true, r.2)

/-- A row of the `spaces` table, as far as deletion is concerned. -/
structure SpaceRec where
  id : String
deriving DecidableEq, Repr

/-- A row of the `monitors` table: its id and its `space_id` foreign key. -/
structure MonitorRec where
  id : String
  space_id : String
deriving DecidableEq, Repr

/-- A row of the `monitor_results` table: its id and its foreign keys. -/
structure ResultRec where
  id : String
  monitor_id : String
  space_id : String
deriving DecidableEq, Repr

/-- The persistent state the space-deletion command manipulates. -/
structure DbState where
  spaces : List SpaceRec
  monitors : List MonitorRec
  results : List ResultRec
deriving DecidableEq, Repr

/-- Operation `Database.delete_monitor` via `MonitorRepository.delete`, combined with
the SQLAlchemy cascade `MonitorModel.results = relationship(...,
cascade="all, delete-orphan")` (`utils/database/models.py`): deleting a
monitor row also deletes its result rows; a missing monitor returns False
and leaves the store unchanged. -/
def delete_monitor (db : DbState) (monitor_id : String) : Bool × DbState :=
  if db.monitors.any (fun m => m.id == monitor_id) then
    (true,
      { db with
        monitors := db.monitors.filter (fun m => m.id != monitor_id),
        results := db.results.filter (fun r => r.monitor_id != monitor_id) })
  else (false, db)

/-- Operation `Database.delete_space` via `SpaceRepository.delete`, combined with the
cascades `SpaceModel.monitors` (space to monitors) and
`MonitorModel.results` (monitor to results): deleting a space row deletes
its monitor rows and, through them, their result rows. -/
def delete_space (db : DbState) (space_id : String) : Bool × DbState :=
  if db.spaces.any (fun s => s.id == space_id) then
    (true,
      { spaces := db.spaces.filter (fun s => s.id != space_id),
        monitors := db.monitors.filter (fun m => m.space_id != space_id),
        results := db.results.filter (fun r =>
          !(db.monitors.any (fun m => m.space_id == space_id && m.id == r.monitor_id))) })
  else (false, db)

/-- Handler `SpaceCommandHandler.delete_space`
(`webmonitor/api/handlers/space_handler.py`, lines 134-155): stop the
space's monitors (no effect on stored rows), delete each monitor of the
space, then delete the space itself.  Returns the success flag of the final
`delete_space` call and the resulting store. -/
def handler_delete_space (db : DbState) (space_id : String) : Bool × DbState :=
  let monitors := db.monitors.filter (fun m => m.space_id == space_id)
  let db1 := monitors.foldl (fun d m => (delete_monitor d m.id).2) db
  delete_space db1 space_id

/-- Operation `Database.list_spaces` restricted to what deletion observes. -/
def list_spaces (db : DbState) : List SpaceRec := db.spaces

/-- Operation `Database.list_monitors` restricted to what deletion observes. -/
def list_monitors (db : DbState) : List MonitorRec := db.monitors

/-- The standard base64 alphabet (RFC 4648) as used by Python's
`base64.b64encode`: the ASCII code of the character for a 6-bit group. -/
def b64chr (n : Nat) : Nat :=
  if n < 26 then 65 + n
  else if n < 52 then 97 + (n - 26)
  else if n < 62 then 48 + (n - 52)
  else if n = 62 then 43
  else 47

/-- Inverse of `b64chr` on the alphabet. -/
def b64dec (c : Nat) : Nat :=
  if 65 ≤ c ∧ c ≤ 90 then c - 65
  else if 97 ≤ c ∧ c ≤ 122 then c - 97 + 26
  else if 48 ≤ c ∧ c ≤ 57 then c - 48 + 52
  else if c = 43 then 62
  else 63

/-- Python `base64.b64encode` on a byte string: three bytes become four
alphabet characters, with `=` (ASCII 61) padding for a final group of one
or two bytes. -/
def b64encode : List Nat → List Nat
  | [] => []
  | [a] => [b64chr (a / 4), b64chr (a % 4 * 16), 61, 61]
  | [a, b] => [b64chr (a / 4), b64chr (a % 4 * 16 + b / 16), b64chr (b % 16 * 4), 61]
  | a :: b :: c :: rest =>
      b64chr (a / 4) :: b64chr (a % 4 * 16 + b / 16) ::
        b64chr (b % 16 * 4 + c / 64) :: b64chr (c % 64) :: b64encode rest

/-- Python `base64.b64decode` on well-padded input: each four-character
group yields three bytes, or fewer when `=` padding is present. -/
def b64decode : List Nat → List Nat
  | c0 :: c1 :: c2 :: c3 :: rest =>
      if c2 = 61 then [b64dec c0 * 4 + b64dec c1 / 16]
      else if c3 = 61 then
        [b64dec c0 * 4 + b64dec c1 / 16, b64dec c1 % 16 * 16 + b64dec c2 / 4]
      else
        (b64dec c0 * 4 + b64dec c1 / 16) ::
          (b64dec c1 % 16 * 16 + b64dec c2 / 4) ::
          (b64dec c2 % 4 * 64 + b64dec c3) :: b64decode rest
  | _ => []

/-- Method `EncryptionService.encrypt_data`
(`webmonitor/utils/encryption_service.py`, lines 47-63): empty input maps
to the empty string; otherwise the UTF-8 bytes are passed to
`Fernet.encrypt` — a function of the external `cryptography` library,
abstracted as the parameter `fernetEncrypt` — and the token is base64
encoded for storage.  Strings are modelled by their byte sequences. -/
def encrypt_data (fernetEncrypt : List Nat → List Nat) (data : List Nat) : List Nat :=
  match data with
  | [] => []
  | _ => b64encode (fernetEncrypt data)

/-- Method `EncryptionService.decrypt_data` (encryption_service.py, lines 65-79):
empty input maps to the empty string; otherwise the stored text is base64
decoded and passed to `Fernet.decrypt` (parameter `fernetDecrypt`). -/
def decrypt_data (fernetDecrypt : List Nat → List Nat) (encrypted_data : List Nat) : List Nat :=
  match encrypted_data with
  | [] => []
  | _ => fernetDecrypt (b64decode encrypted_data)

/-! ### Theorems -/

theorem b64dec_b64chr : ∀ n, n < 64 → b64dec (b64chr n) = n := by decide

theorem b64chr_ne_pad : ∀ n, n < 64 → b64chr n ≠ 61 := by decide

/-- Base64 round-trip on byte strings. -/
theorem b64_roundtrip : ∀ l : List Nat, (∀ x ∈ l, x < 256) →
    b64decode (b64encode l) = l
  | [], _ => rfl
  | [a], h => by
      have ha : a < 256 := h a (by simp)
      have h0 : a / 4 < 64 := by omega
      have h1 : a % 4 * 16 < 64 := by omega
      simp only [b64encode, b64decode, if_pos]
      rw [b64dec_b64chr _ h0, b64dec_b64chr _ h1]
      have : a / 4 * 4 + a % 4 * 16 / 16 = a := by omega
      rw [this]
  | [a, b], h => by
      have ha : a < 256 := h a (by simp)
      have hb : b < 256 := h b (by simp)
      have h0 : a / 4 < 64 := by omega
      have h1 : a % 4 * 16 + b / 16 < 64 := by omega
      have h2 : b % 16 * 4 < 64 := by omega
      simp only [b64encode, b64decode, if_neg (b64chr_ne_pad _ h2), if_pos]
      rw [b64dec_b64chr _ h0, b64dec_b64chr _ h1, b64dec_b64chr _ h2]
      have e1 : a / 4 * 4 + (a % 4 * 16 + b / 16) / 16 = a := by omega
      have e2 : (a % 4 * 16 + b / 16) % 16 * 16 + b % 16 * 4 / 4 = b := by omega
      rw [e1, e2]
  | a :: b :: c :: d :: rest, h => by
      have ha : a < 256 := h a (by simp)
      have hb : b < 256 := h b (by simp)
      have hc : c < 256 := h c (by simp)
      have h0 : a / 4 < 64 := by omega
      have h1 : a % 4 * 16 + b / 16 < 64 := by omega
      have h2 : b % 16 * 4 + c / 64 < 64 := by omega
      have h3 : c % 64 < 64 := by omega
      have ih := b64_roundtrip (d :: rest) (fun x hx => h x (by simp [hx]))
      simp only [b64encode, b64decode, if_neg (b64chr_ne_pad _ h2),
        if_neg (b64chr_ne_pad _ h3)]
      rw [b64dec_b64chr _ h0, b64dec_b64chr _ h1, b64dec_b64chr _ h2,
        b64dec_b64chr _ h3]
      have e1 : a / 4 * 4 + (a % 4 * 16 + b / 16) / 16 = a := by omega
      have e2 : (a % 4 * 16 + b / 16) % 16 * 16 + (b % 16 * 4 + c / 64) / 4 = b := by
        omega
      have e3 : (b % 16 * 4 + c / 64) % 4 * 64 + c % 64 = c := by omega
      rw [e1, e2, e3, ih]
  | [a, b, c], h => by
      have ha : a < 256 := h a (by simp)
      have hb : b < 256 := h b (by simp)
      have hc : c < 256 := h c (by simp)
      have h0 : a / 4 < 64 := by omega
      have h1 : a % 4 * 16 + b / 16 < 64 := by omega
      have h2 : b % 16 * 4 + c / 64 < 64 := by omega
      have h3 : c % 64 < 64 := by omega
      simp only [b64encode, b64decode, if_neg (b64chr_ne_pad _ h2),
        if_neg (b64chr_ne_pad _ h3)]
      rw [b64dec_b64chr _ h0, b64dec_b64chr _ h1, b64dec_b64chr _ h2,
        b64dec_b64chr _ h3]
      have e1 : a / 4 * 4 + (a % 4 * 16 + b / 16) / 16 = a := by omega
      have e2 : (a % 4 * 16 + b / 16) % 16 * 16 + (b % 16 * 4 + c / 64) / 4 = b := by
        omega
      have e3 : (b % 16 * 4 + c / 64) % 4 * 64 + c % 64 = c := by omega
      rw [e1, e2, e3]

theorem b64encode_ne_nil (l : List Nat) (hl : l ≠ []) : b64encode l ≠ [] := by
  match l with
  | [] => exact absurd rfl hl
  | [a] => simp [b64encode]
  | [a, b] => simp [b64encode]
  | a :: b :: c :: rest => simp [b64encode]

/-- C9: for every nonempty string `s`, decrypting the ciphertext produced
by encrypting `s` returns `s`, given that the underlying Fernet primitive
(external library) restores the plaintext from its own token and produces
a nonempty token of bytes. -/
theorem encrypt_decrypt_roundtrip (fernetEncrypt fernetDecrypt : List Nat → List Nat)
    (s : List Nat) (hs : s ≠ [])
    (hbytes : ∀ x ∈ fernetEncrypt s, x < 256)
    (htok : fernetEncrypt s ≠ [])
    (hfernet : fernetDecrypt (fernetEncrypt s) = s) :
    decrypt_data fernetDecrypt (encrypt_data fernetEncrypt s) = s := by
  have henc : encrypt_data fernetEncrypt s = b64encode (fernetEncrypt s) := by
    cases s with
    | nil => exact absurd rfl hs
    | cons a l => rfl
  rw [henc]
  have hne : b64encode (fernetEncrypt s) ≠ [] := b64encode_ne_nil _ htok
  have hdec : decrypt_data fernetDecrypt (b64encode (fernetEncrypt s))
      = fernetDecrypt (b64decode (b64encode (fernetEncrypt s))) := by
    cases hbe : b64encode (fernetEncrypt s) with
    | nil => exact absurd hbe hne
    | cons c cs => rfl
  rw [hdec, b64_roundtrip _ hbytes, hfernet]

/-- Witness for `encrypt_decrypt_roundtrip`: the two-byte string "hi" with
the identity as the Fernet primitive. -/
theorem encrypt_decrypt_roundtrip_witness :
    decrypt_data (fun b => b) (encrypt_data (fun b => b) [104, 105]) = [104, 105] :=
  encrypt_decrypt_roundtrip (fun b => b) (fun b => b) [104, 105]
    (by decide) (by decide) (by decide) rfl


/-- C1: for every URL monitor, `check_url` returns a result whose
`check_list` is, in order, connection and status_code, plus content iff
`check_content` is set (truthy), plus ssl iff `check_ssl` is set;
`failed_checks` equals the number of checks that signalled failure;
`status = HEALTHY` iff `failed_checks = 0`; and when the GET fails only the
connection failure is counted (`failed_checks = 1`) while the downstream
checks remain listed. -/
theorem check_url_result_spec (m : UrlMonitor) (w : UrlWorld) :
    (check_url m w).check_list
      = ["connection", "status_code"]
        ++ (if m.contentTruthy then ["content"] else [])
        ++ (if m.check_ssl then ["ssl"] else [])
    ∧ (check_url m w).failed_checks = spec_url_failed_count m w
    ∧ ((check_url m w).status = MonitorStatus.healthy ↔ (check_url m w).failed_checks = 0)
    ∧ (w.get = GetOutcome.timeout ∨ w.get = GetOutcome.connectionError ∨
        w.get = GetOutcome.otherError →
        (check_url m w).failed_checks = 1) := by
  obtain ⟨g, ssl⟩ := w
  cases g with
  | success code body =>
      by_cases hc : code = m.expected_status_code <;>
      by_cases hcont : (m.contentTruthy && !(strContains (m.check_content.getD "") body)) = true <;>
      by_cases hssl : (m.check_ssl && !ssl) = true <;>
      simp [check_url, spec_url_failed_count, hc, hcont, hssl]
  | timeout => simp [check_url, spec_url_failed_count]
  | connectionError => simp [check_url, spec_url_failed_count]
  | otherError => simp [check_url, spec_url_failed_count]

/-- Witness for `check_url_result_spec`: a concrete monitor and a timed-out
GET, exercising the connection-failure clause. -/
theorem check_url_result_spec_witness :
    (check_url ⟨"http://x", 200, 30, true, true, none⟩ ⟨GetOutcome.timeout, false⟩).check_list
      = ["connection", "status_code"]
        ++ (if (⟨"http://x", 200, 30, true, true, none⟩ : UrlMonitor).contentTruthy
            then ["content"] else [])
        ++ (if (⟨"http://x", 200, 30, true, true, none⟩ : UrlMonitor).check_ssl
            then ["ssl"] else [])
    ∧ (check_url ⟨"http://x", 200, 30, true, true, none⟩ ⟨GetOutcome.timeout, false⟩).failed_checks
        = spec_url_failed_count ⟨"http://x", 200, 30, true, true, none⟩ ⟨GetOutcome.timeout, false⟩
    ∧ ((check_url ⟨"http://x", 200, 30, true, true, none⟩ ⟨GetOutcome.timeout, false⟩).status
          = MonitorStatus.healthy
        ↔ (check_url ⟨"http://x", 200, 30, true, true, none⟩
            ⟨GetOutcome.timeout, false⟩).failed_checks = 0)
    ∧ ((⟨GetOutcome.timeout, false⟩ : UrlWorld).get = GetOutcome.timeout ∨
        (⟨GetOutcome.timeout, false⟩ : UrlWorld).get = GetOutcome.connectionError ∨
        (⟨GetOutcome.timeout, false⟩ : UrlWorld).get = GetOutcome.otherError →
        (check_url ⟨"http://x", 200, 30, true, true, none⟩
          ⟨GetOutcome.timeout, false⟩).failed_checks = 1) :=
  check_url_result_spec ⟨"http://x", 200, 30, true, true, none⟩ ⟨GetOutcome.timeout, false⟩

/-- C10: for every URL monitor whose GET succeeds, the `details` mapping
always contains a `content` entry; when `check_content` is not configured
that entry is `{expected: None, found: True}`, `content` is absent from
`check_list`, and it contributes nothing to `failed_checks`. -/
theorem check_url_content_always_present (m : UrlMonitor) (w : UrlWorld)
    (code : Nat) (body : String) (hget : w.get = GetOutcome.success code body) :
    ((check_url m w).details.content).isSome = true
    ∧ (m.check_content = none →
        (check_url m w).details.content
          = some { expected := none, found := true, message := none }
        ∧ "content" ∉ (check_url m w).check_list
        ∧ (check_url m w).failed_checks
            = (if code ≠ m.expected_status_code then 1 else 0)
              + (if m.check_ssl && !w.ssl_has_ssl then 1 else 0)) := by
  obtain ⟨g, ssl⟩ := w
  cases hget
  refine ⟨?_, fun hnone => ?_⟩
  · by_cases hc : code = m.expected_status_code <;>
    by_cases hcont : (m.contentTruthy && !(strContains (m.check_content.getD "") body)) = true <;>
    simp [check_url, hc, hcont]
  · have htruthy : m.contentTruthy = false := by
      simp [UrlMonitor.contentTruthy, hnone]
    by_cases hc : code = m.expected_status_code <;>
    by_cases hssl : (m.check_ssl && !ssl) = true <;>
    simp [check_url, hc, hssl, htruthy, hnone]

/-- Witness for `check_url_content_always_present`: a successful GET on a
monitor with no `check_content`. -/
theorem check_url_content_always_present_witness :
    ((check_url ⟨"http://x", 200, 30, false, true, none⟩
        ⟨GetOutcome.success 200 "ok", false⟩).details.content).isSome = true
    ∧ ((⟨"http://x", 200, 30, false, true, none⟩ : UrlMonitor).check_content = none →
        (check_url ⟨"http://x", 200, 30, false, true, none⟩
            ⟨GetOutcome.success 200 "ok", false⟩).details.content
          = some { expected := none, found := true, message := none }
        ∧ "content" ∉ (check_url ⟨"http://x", 200, 30, false, true, none⟩
            ⟨GetOutcome.success 200 "ok", false⟩).check_list
        ∧ (check_url ⟨"http://x", 200, 30, false, true, none⟩
            ⟨GetOutcome.success 200 "ok", false⟩).failed_checks
            = (if (200 : Nat) ≠ (⟨"http://x", 200, 30, false, true, none⟩ : UrlMonitor).expected_status_code
               then 1 else 0)
              + (if (⟨"http://x", 200, 30, false, true, none⟩ : UrlMonitor).check_ssl
                    && !(⟨GetOutcome.success 200 "ok", false⟩ : UrlWorld).ssl_has_ssl
                 then 1 else 0)) :=
  check_url_content_always_present ⟨"http://x", 200, 30, false, true, none⟩
    ⟨GetOutcome.success 200 "ok", false⟩ 200 "ok" rfl

/-- C2: for every DATABASE monitor, `check_db` returns a result with
`check_list = [connection, query]` and `failed_checks ∈ {0, 1, 2}`; if
opening the connection fails both checks fail (`failed_checks = 2`,
UNHEALTHY); if the connection succeeds but the test query fails,
`failed_checks = 1` and UNHEALTHY; HEALTHY iff `failed_checks = 0`. -/
theorem check_db_result_spec (m : DatabaseMonitor) (w : DbWorld) :
    (check_db m w).check_list = ["connection", "query"]
    ∧ ((check_db m w).failed_checks = 0 ∨ (check_db m w).failed_checks = 1 ∨
        (check_db m w).failed_checks = 2)
    ∧ (db_connection_fails m w →
        (check_db m w).failed_checks = 2
        ∧ (check_db m w).status = MonitorStatus.unhealthy)
    ∧ (¬ db_connection_fails m w → pyStrip m.test_query ≠ "" → w.query_fails = true →
        (check_db m w).failed_checks = 1
        ∧ (check_db m w).status = MonitorStatus.unhealthy)
    ∧ ((check_db m w).status = MonitorStatus.healthy ↔ (check_db m w).failed_checks = 0) := by
  cases htc : test_connection_string m with
  | error e =>
      refine ⟨by simp [check_db, htc], by simp [check_db, htc], ?_, ?_, by simp [check_db, htc]⟩
      · intro _; simp [check_db, htc]
      · intro hno; exact absurd (Or.inl ⟨e, htc⟩) hno
  | ok s =>
      by_cases hcf : w.connect_fails = true
      · refine ⟨by simp [check_db, htc, hcf], by simp [check_db, htc, hcf], ?_, ?_, ?_⟩
        · intro _; simp [check_db, htc, hcf]
        · intro hno; exact absurd (Or.inr hcf) hno
        · simp [check_db, htc, hcf]
      · have hdc : ¬ db_connection_fails m w := by
          rintro (⟨e, he⟩ | hc)
          · rw [htc] at he; exact Except.noConfusion he
          · exact hcf hc
        by_cases hq : pyStrip m.test_query = ""
        · refine ⟨by simp [check_db, htc, hcf, hq], by simp [check_db, htc, hcf, hq],
            fun hd => absurd hd hdc, fun _ hq' => absurd hq hq',
            by simp [check_db, htc, hcf, hq]⟩
        · by_cases hqf : w.query_fails = true
          · refine ⟨by simp [check_db, htc, hcf, hq, hqf], by simp [check_db, htc, hcf, hq, hqf],
              fun hd => absurd hd hdc, fun _ _ _ => by simp [check_db, htc, hcf, hq, hqf],
              by simp [check_db, htc, hcf, hq, hqf]⟩
          · refine ⟨by simp [check_db, htc, hcf, hq, hqf], by simp [check_db, htc, hcf, hq, hqf],
              fun hd => absurd hd hdc, fun _ _ hqf' => absurd hqf' hqf,
              by simp [check_db, htc, hcf, hq, hqf]⟩

/-- Witness for `check_db_result_spec`: a postgresql monitor whose test
query fails, exercising the `failed_checks = 1` clause. -/
theorem check_db_result_spec_witness :
    (check_db ⟨"postgresql", "h", 5432, "d", "u", "p", 10, 30, "SELECT 1"⟩
        ⟨false, true, 0⟩).failed_checks = 1
    ∧ (check_db ⟨"postgresql", "h", 5432, "d", "u", "p", 10, 30, "SELECT 1"⟩
        ⟨false, true, 0⟩).status = MonitorStatus.unhealthy := by
  have h := check_db_result_spec ⟨"postgresql", "h", 5432, "d", "u", "p", 10, 30, "SELECT 1"⟩
    ⟨false, true, 0⟩
  exact h.2.2.2.1
    (by rintro (⟨e, he⟩ | hc)
        · rw [(by decide :
            test_connection_string ⟨"postgresql", "h", 5432, "d", "u", "p", 10, 30, "SELECT 1"⟩
              = Except.ok "postgresql://u:p@h:5432/d")] at he
          exact Except.noConfusion he
        · exact Bool.noConfusion hc)
    (by decide) rfl

/-- C8: for every DATABASE monitor whose lowercased `db_type` is none of
postgresql, mysql, sqlserver, the connection-string builder raises the
unsupported-dialect error and `check_db` marks both checks failed
(`failed_checks = 2`, UNHEALTHY). -/
theorem check_db_unsupported_dialect (m : DatabaseMonitor) (w : DbWorld)
    (h : pyLower m.db_type ≠ "postgresql" ∧ pyLower m.db_type ≠ "mysql" ∧
         pyLower m.db_type ≠ "sqlserver") :
    test_connection_string m = Except.error ("Unsupported database type: " ++ m.db_type)
    ∧ (check_db m w).failed_checks = 2
    ∧ (check_db m w).status = MonitorStatus.unhealthy
    ∧ (check_db m w).details.connection
        = some { connected := false, message := some CONNECTION_ERROR }
    ∧ (check_db m w).details.query
        = some { executed := false, message := some QUERY_CONNECTION_ERROR } := by
  obtain ⟨h1, h2, h3⟩ := h
  have htc : test_connection_string m
      = Except.error ("Unsupported database type: " ++ m.db_type) := by
    simp [test_connection_string, h1, h2, h3]
  exact ⟨htc, by simp [check_db, htc], by simp [check_db, htc],
    by simp [check_db, htc], by simp [check_db, htc]⟩

/-- Witness for `check_db_unsupported_dialect`: an `oracle` monitor. -/
theorem check_db_unsupported_dialect_witness :
    test_connection_string ⟨"oracle", "h", 1521, "d", "u", "p", 10, 30, "SELECT 1"⟩
      = Except.error ("Unsupported database type: " ++ "oracle")
    ∧ (check_db ⟨"oracle", "h", 1521, "d", "u", "p", 10, 30, "SELECT 1"⟩
        ⟨false, false, 0⟩).failed_checks = 2
    ∧ (check_db ⟨"oracle", "h", 1521, "d", "u", "p", 10, 30, "SELECT 1"⟩
        ⟨false, false, 0⟩).status = MonitorStatus.unhealthy
    ∧ (check_db ⟨"oracle", "h", 1521, "d", "u", "p", 10, 30, "SELECT 1"⟩
        ⟨false, false, 0⟩).details.connection
        = some { connected := false, message := some CONNECTION_ERROR }
    ∧ (check_db ⟨"oracle", "h", 1521, "d", "u", "p", 10, 30, "SELECT 1"⟩
        ⟨false, false, 0⟩).details.query
        = some { executed := false, message := some QUERY_CONNECTION_ERROR } :=
  check_db_unsupported_dialect ⟨"oracle", "h", 1521, "d", "u", "p", 10, 30, "SELECT 1"⟩
    ⟨false, false, 0⟩ (by decide)

/-- C4: `should_send_notification(new, prev)` is true iff: with no previous
result, the new status is UNHEALTHY; otherwise, the status changed.  In
particular a repeated UNHEALTHY produces no notification and any change
(including UNHEALTHY to HEALTHY) does. -/
theorem should_send_notification_spec (r p : MonitorResult) :
    (should_send_notification r none = true ↔ r.status = MonitorStatus.unhealthy)
    ∧ (should_send_notification r (some p) = true ↔ r.status ≠ p.status)
    ∧ (p.status = MonitorStatus.unhealthy → r.status = MonitorStatus.unhealthy →
        should_send_notification r (some p) = false)
    ∧ (r.status ≠ p.status → should_send_notification r (some p) = true) := by
  refine ⟨by simp [should_send_notification], ?_, ?_, ?_⟩
  · simp [should_send_notification]
    exact ne_comm
  · intro hp hr
    simp [should_send_notification, hp, hr]
  · intro hne
    simp [should_send_notification]
    exact fun hpr => absurd hpr.symm hne

/-- Witness for `should_send_notification_spec`: a repeated-UNHEALTHY pair. -/
theorem should_send_notification_spec_witness :
    (should_send_notification
        ⟨MonitorStatus.unhealthy, 1, [], ⟨none, none, none, none, none⟩⟩ none = true
      ↔ (⟨MonitorStatus.unhealthy, 1, [], ⟨none, none, none, none, none⟩⟩ :
          MonitorResult).status = MonitorStatus.unhealthy)
    ∧ (should_send_notification
          ⟨MonitorStatus.unhealthy, 1, [], ⟨none, none, none, none, none⟩⟩
          (some ⟨MonitorStatus.unhealthy, 2, [], ⟨none, none, none, none, none⟩⟩) = true
      ↔ (⟨MonitorStatus.unhealthy, 1, [], ⟨none, none, none, none, none⟩⟩ :
          MonitorResult).status
          ≠ (⟨MonitorStatus.unhealthy, 2, [], ⟨none, none, none, none, none⟩⟩ :
              MonitorResult).status)
    ∧ ((⟨MonitorStatus.unhealthy, 2, [], ⟨none, none, none, none, none⟩⟩ :
          MonitorResult).status = MonitorStatus.unhealthy →
        (⟨MonitorStatus.unhealthy, 1, [], ⟨none, none, none, none, none⟩⟩ :
          MonitorResult).status = MonitorStatus.unhealthy →
        should_send_notification
          ⟨MonitorStatus.unhealthy, 1, [], ⟨none, none, none, none, none⟩⟩
          (some ⟨MonitorStatus.unhealthy, 2, [], ⟨none, none, none, none, none⟩⟩) = false)
    ∧ ((⟨MonitorStatus.unhealthy, 1, [], ⟨none, none, none, none, none⟩⟩ :
          MonitorResult).status
          ≠ (⟨MonitorStatus.unhealthy, 2, [], ⟨none, none, none, none, none⟩⟩ :
              MonitorResult).status →
        should_send_notification
          ⟨MonitorStatus.unhealthy, 1, [], ⟨none, none, none, none, none⟩⟩
          (some ⟨MonitorStatus.unhealthy, 2, [], ⟨none, none, none, none, none⟩⟩) = true) :=
  should_send_notification_spec
    ⟨MonitorStatus.unhealthy, 1, [], ⟨none, none, none, none, none⟩⟩
    ⟨MonitorStatus.unhealthy, 2, [], ⟨none, none, none, none, none⟩⟩

/-- C3 counterexample: the scheduler sets `last_checked_at` first and
`last_healthy_at` afterwards, with separate `datetime.now()` reads, so on a
healthy run where the clock advances between the two reads (`t1 = 0`,
`t2 = 1`) the claimed invariant `last_healthy_at ≤ last_checked_at` fails. -/
theorem run_monitor_update_healthy_le_checked_cex :
    (run_monitor_update ⟨0, none, none, none⟩ MonitorStatus.healthy 0 1).last_checked_at
      = some 0
    ∧ (run_monitor_update ⟨0, none, none, none⟩ MonitorStatus.healthy 0 1).last_healthy_at
      = some 1
    ∧ ¬ healthy_le_checked
        (run_monitor_update ⟨0, none, none, none⟩ MonitorStatus.healthy 0 1) := by
  refine ⟨rfl, rfl, fun H => ?_⟩
  have := H 1 0 rfl rfl
  omega

/-- C3 amended: after any completed probe run at clock instants
`t1 ≤ t2` (the two `datetime.now()` reads), `last_checked_at` is set
regardless of outcome; `last_healthy_at` is updated exactly on HEALTHY and
never decreases; `last_checked_at ≥ created_at`; and whenever
`last_healthy_at` is set, it is ≤ `last_checked_at` on non-HEALTHY runs,
while on HEALTHY runs `last_checked_at ≤ last_healthy_at` (the healthy
stamp is taken at or after the checked stamp). -/
theorem run_monitor_update_spec (m : MonitorTimes) (status : MonitorStatus)
    (t1 t2 : Nat) (hc : m.created_at ≤ t1)
    (hmono : ∀ h, m.last_healthy_at = some h → h ≤ t1) (h12 : t1 ≤ t2) :
    (run_monitor_update m status t1 t2).last_checked_at = some t1
    ∧ (run_monitor_update m status t1 t2).created_at = m.created_at
    ∧ (status = MonitorStatus.healthy →
        (run_monitor_update m status t1 t2).last_healthy_at = some t2)
    ∧ (status ≠ MonitorStatus.healthy →
        (run_monitor_update m status t1 t2).last_healthy_at = m.last_healthy_at)
    ∧ (∀ h h', m.last_healthy_at = some h →
        (run_monitor_update m status t1 t2).last_healthy_at = some h' → h ≤ h')
    ∧ (∀ c, (run_monitor_update m status t1 t2).last_checked_at = some c →
        m.created_at ≤ c)
    ∧ (status = MonitorStatus.healthy →
        ∀ h c, (run_monitor_update m status t1 t2).last_healthy_at = some h →
          (run_monitor_update m status t1 t2).last_checked_at = some c → c ≤ h)
    ∧ (status ≠ MonitorStatus.healthy →
        healthy_le_checked (run_monitor_update m status t1 t2)) := by
  by_cases hs : status = MonitorStatus.healthy
  · refine ⟨by simp [run_monitor_update, update_last_checked_at, update_last_healthy_at, hs],
      by simp [run_monitor_update, update_last_checked_at, update_last_healthy_at, hs],
      fun _ => by simp [run_monitor_update, update_last_checked_at, update_last_healthy_at, hs],
      fun hns => absurd hs hns, ?_, ?_, ?_, fun hns => absurd hs hns⟩
    · intro h h' hm hr
      simp [run_monitor_update, update_last_checked_at, update_last_healthy_at, hs] at hr
      have := hmono h hm
      omega
    · intro c hcheck
      simp [run_monitor_update, update_last_checked_at, update_last_healthy_at, hs] at hcheck
      omega
    · intro _ h c hh hcheck
      simp [run_monitor_update, update_last_checked_at, update_last_healthy_at, hs]
        at hh hcheck
      omega
  · refine ⟨by simp [run_monitor_update, update_last_checked_at, hs],
      by simp [run_monitor_update, update_last_checked_at, hs],
      fun hs' => absurd hs' hs,
      fun _ => by simp [run_monitor_update, update_last_checked_at, hs], ?_, ?_,
      fun hs' => absurd hs' hs, ?_⟩
    · intro h h' hm hr
      simp [run_monitor_update, update_last_checked_at, hs] at hr
      rw [hm] at hr
      simp at hr
      omega
    · intro c hcheck
      simp [run_monitor_update, update_last_checked_at, hs] at hcheck
      omega
    · intro _ h c hh hcheck
      simp [run_monitor_update, update_last_checked_at, hs] at hh hcheck
      have := hmono h hh
      omega

/-- Witness for `run_monitor_update_spec`: a monitor created at 0, last
healthy at 3, probed healthy with clock reads 5 and 6. -/
theorem run_monitor_update_spec_witness :
    (run_monitor_update ⟨0, none, some 4, some 3⟩ MonitorStatus.healthy 5 6).last_checked_at
      = some 5
    ∧ (run_monitor_update ⟨0, none, some 4, some 3⟩ MonitorStatus.healthy 5 6).created_at = 0
    ∧ (MonitorStatus.healthy = MonitorStatus.healthy →
        (run_monitor_update ⟨0, none, some 4, some 3⟩
          MonitorStatus.healthy 5 6).last_healthy_at = some 6)
    ∧ (MonitorStatus.healthy ≠ MonitorStatus.healthy →
        (run_monitor_update ⟨0, none, some 4, some 3⟩
          MonitorStatus.healthy 5 6).last_healthy_at
          = (⟨0, none, some 4, some 3⟩ : MonitorTimes).last_healthy_at)
    ∧ (∀ h h', (⟨0, none, some 4, some 3⟩ : MonitorTimes).last_healthy_at = some h →
        (run_monitor_update ⟨0, none, some 4, some 3⟩
          MonitorStatus.healthy 5 6).last_healthy_at = some h' → h ≤ h')
    ∧ (∀ c, (run_monitor_update ⟨0, none, some 4, some 3⟩
          MonitorStatus.healthy 5 6).last_checked_at = some c →
        (⟨0, none, some 4, some 3⟩ : MonitorTimes).created_at ≤ c)
    ∧ (MonitorStatus.healthy = MonitorStatus.healthy →
        ∀ h c, (run_monitor_update ⟨0, none, some 4, some 3⟩
            MonitorStatus.healthy 5 6).last_healthy_at = some h →
          (run_monitor_update ⟨0, none, some 4, some 3⟩
            MonitorStatus.healthy 5 6).last_checked_at = some c → c ≤ h)
    ∧ (MonitorStatus.healthy ≠ MonitorStatus.healthy →
        healthy_le_checked
          (run_monitor_update ⟨0, none, some 4, some 3⟩ MonitorStatus.healthy 5 6)) :=
  run_monitor_update_spec ⟨0, none, some 4, some 3⟩ MonitorStatus.healthy 5 6
    (by decide) (fun h hh => by simp at hh; omega) (by decide)

theorem dropMatches_sublist {α : Type} (p : α → Bool) :
    ∀ (n : Nat) (l : List α), (dropMatches p n l).Sublist l
  | _, [] => by simp [dropMatches]
  | 0, l => by cases l <;> simp [dropMatches]
  | n + 1, x :: xs => by
      by_cases hx : p x = true
      · simpa [dropMatches, hx] using (dropMatches_sublist p n xs).cons x
      · simpa [dropMatches, hx] using (dropMatches_sublist p (n + 1) xs).cons₂ x

theorem dropMatches_countP {α : Type} (p : α → Bool) :
    ∀ (n : Nat) (l : List α),
      (dropMatches p n l).countP p = l.countP p - n
  | _, [] => by simp [dropMatches]
  | 0, l => by cases l <;> simp [dropMatches]
  | n + 1, x :: xs => by
      by_cases hx : p x = true
      · have ih := dropMatches_countP p n xs
        simp [dropMatches, hx, List.countP_cons]
        omega
      · have ih := dropMatches_countP p (n + 1) xs
        simp [dropMatches, hx, List.countP_cons]
        omega

theorem dropMatches_countP_disjoint {α : Type} (p q : α → Bool)
    (hpq : ∀ x, p x = true → q x = false) :
    ∀ (n : Nat) (l : List α),
      (dropMatches p n l).countP q = l.countP q
  | _, [] => by simp [dropMatches]
  | 0, l => by cases l <;> simp [dropMatches]
  | n + 1, x :: xs => by
      by_cases hx : p x = true
      · have ih := dropMatches_countP_disjoint p q hpq n xs
        simp [dropMatches, hx, List.countP_cons, hpq x hx, ih]
      · have ih := dropMatches_countP_disjoint p q hpq (n + 1) xs
        simp [dropMatches, hx, List.countP_cons, ih]

/-- Full characterisation of the batched deletion loop with a positive
batch size: it deletes exactly the rows matching `p`, leaves a sublist of
the store, and does not touch rows matching any predicate disjoint from
`p`. -/
theorem cleanup_results_by_status_spec (p : StoredResult → Bool) (bs : Nat)
    (hbs : 0 < bs) (store : List StoredResult) :
    (cleanup_results_by_status p bs store).1 = store.countP p
    ∧ (cleanup_results_by_status p bs store).2.countP p = 0
    ∧ (cleanup_results_by_status p bs store).2.Sublist store
    ∧ ∀ (q : StoredResult → Bool), (∀ x, p x = true → q x = false) →
        (cleanup_results_by_status p bs store).2.countP q = store.countP q := by
  have hcl : store.countP p ≤ store.length := List.countP_le_length p
  rw [cleanup_results_by_status]
  by_cases h0 : min bs (store.countP p) = 0
  · have hc0 : store.countP p = 0 := by omega
    simp [h0, hc0]
  · by_cases hlt : min bs (store.countP p) < bs
    · have hcc : min bs (store.countP p) = store.countP p := by omega
      simp only [h0, if_neg, hlt, if_pos, ite_false, ite_true]
      refine ⟨by omega, ?_, dropMatches_sublist p _ store, ?_⟩
      · rw [dropMatches_countP]
        omega
      · intro q hq
        exact dropMatches_countP_disjoint p q hq _ store
    · have hbc : min bs (store.countP p) = bs := by omega
      have hbsc : bs ≤ store.countP p := by omega
      have hdec : (dropMatches p (min bs (store.countP p)) store).length
          < store.length := by
        rw [dropMatches_length]
        omega
      have ih := cleanup_results_by_status_spec p bs hbs
        (dropMatches p (min bs (store.countP p)) store)
      have hdcount : (dropMatches p (min bs (store.countP p)) store).countP p
          = store.countP p - bs := by
        rw [dropMatches_countP]
        omega
      simp only [h0, hlt, ite_false, ite_true, if_neg]
      refine ⟨?_, ih.2.1, ih.2.2.1.trans (dropMatches_sublist p _ store), ?_⟩
      · rw [ih.1, hdcount]
        omega
      · intro q hq
        rw [ih.2.2.2 q hq, dropMatches_countP_disjoint p q hq]
termination_by store.length
decreasing_by exact hdec

/-- Two stale-row filters with different target statuses never select the
same row. -/
theorem staleWith_disjoint (c c' : Int) (s s' : MonitorStatus) (hss : s ≠ s') :
    ∀ x, staleWith c s x = true → staleWith c' s' x = false := by
  intro x hx
  simp [staleWith] at hx ⊢
  intro _
  rw [hx.2]
  exact hss

/-- C6: after `cleanup_old_results(keep_healthy_days, keep_unhealthy_days,
batch_size)` with a positive batch size, no stored result is HEALTHY and
older than `now − keep_healthy_days`, none is UNHEALTHY or UNKNOWN and
older than `now − keep_unhealthy_days`; the counts record exactly the
matching rows per status, `total_deleted = healthy_deleted +
unhealthy_deleted`, and nothing else is deleted (the remaining store is a
sublist of the input). -/
theorem cleanup_old_results_spec (store : List StoredResult) (now khd kud : Int)
    (bs : Nat) (hbs : 0 < bs) :
    (∀ r ∈ (cleanup_old_results store now khd kud bs).2,
        ¬ (r.status = MonitorStatus.healthy ∧ r.timestamp < now - khd))
    ∧ (∀ r ∈ (cleanup_old_results store now khd kud bs).2,
        ¬ ((r.status = MonitorStatus.unhealthy ∨ r.status = MonitorStatus.unknown)
            ∧ r.timestamp < now - kud))
    ∧ (cleanup_old_results store now khd kud bs).1.total_deleted
        = (cleanup_old_results store now khd kud bs).1.healthy_deleted
          + (cleanup_old_results store now khd kud bs).1.unhealthy_deleted
    ∧ (cleanup_old_results store now khd kud bs).1.healthy_deleted
        = store.countP (staleWith (now - khd) MonitorStatus.healthy)
    ∧ (cleanup_old_results store now khd kud bs).1.unhealthy_deleted
        = store.countP (staleWith (now - kud) MonitorStatus.unhealthy)
          + store.countP (staleWith (now - kud) MonitorStatus.unknown)
    ∧ (cleanup_old_results store now khd kud bs).2.Sublist store := by
  have h1 := cleanup_results_by_status_spec
    (staleWith (now - khd) MonitorStatus.healthy) bs hbs store
  have h2 := cleanup_results_by_status_spec
    (staleWith (now - kud) MonitorStatus.unhealthy) bs hbs
    (cleanup_results_by_status (staleWith (now - khd) MonitorStatus.healthy) bs store).2
  have h3 := cleanup_results_by_status_spec
    (staleWith (now - kud) MonitorStatus.unknown) bs hbs
    (cleanup_results_by_status (staleWith (now - kud) MonitorStatus.unhealthy) bs
      (cleanup_results_by_status (staleWith (now - khd) MonitorStatus.healthy) bs store).2).2
  have dhu := staleWith_disjoint (now - khd) (now - kud)
    MonitorStatus.healthy MonitorStatus.unhealthy (by simp)
  have dhk := staleWith_disjoint (now - khd) (now - kud)
    MonitorStatus.healthy MonitorStatus.unknown (by simp)
  have duk := staleWith_disjoint (now - kud) (now - kud)
    MonitorStatus.unhealthy MonitorStatus.unknown (by simp)
  have dku := staleWith_disjoint (now - kud) (now - kud)
    MonitorStatus.unknown MonitorStatus.unhealthy (by simp)
  have dkh := staleWith_disjoint (now - kud) (now - khd)
    MonitorStatus.unknown MonitorStatus.healthy (by simp)
  have duh := staleWith_disjoint (now - kud) (now - khd)
    MonitorStatus.unhealthy MonitorStatus.healthy (by simp)
  simp only [cleanup_old_results]
  refine ⟨?_, ?_, trivial, h1.1, ?_, ?_⟩
  · have hz : ((cleanup_results_by_status (staleWith (now - kud) MonitorStatus.unknown) bs
        (cleanup_results_by_status (staleWith (now - kud) MonitorStatus.unhealthy) bs
          (cleanup_results_by_status (staleWith (now - khd) MonitorStatus.healthy) bs
            store).2).2).2).countP (staleWith (now - khd) MonitorStatus.healthy) = 0 := by
      rw [h3.2.2.2 _ dkh, h2.2.2.2 _ duh, h1.2.1]
    rw [List.countP_eq_zero] at hz
    intro r hr hcontra
    have := hz r hr
    simp [staleWith] at this
    exact absurd (this hcontra.2) (by simp [hcontra.1])
  · have hzu : ((cleanup_results_by_status (staleWith (now - kud) MonitorStatus.unknown) bs
        (cleanup_results_by_status (staleWith (now - kud) MonitorStatus.unhealthy) bs
          (cleanup_results_by_status (staleWith (now - khd) MonitorStatus.healthy) bs
            store).2).2).2).countP (staleWith (now - kud) MonitorStatus.unhealthy) = 0 := by
      rw [h3.2.2.2 _ dku, h2.2.1]
    have hzk : ((cleanup_results_by_status (staleWith (now - kud) MonitorStatus.unknown) bs
        (cleanup_results_by_status (staleWith (now - kud) MonitorStatus.unhealthy) bs
          (cleanup_results_by_status (staleWith (now - khd) MonitorStatus.healthy) bs
            store).2).2).2).countP (staleWith (now - kud) MonitorStatus.unknown) = 0 :=
      h3.2.1
    rw [List.countP_eq_zero] at hzu hzk
    intro r hr hcontra
    rcases hcontra.1 with hu | hk
    · have := hzu r hr
      simp [staleWith] at this
      exact absurd (this hcontra.2) (by simp [hu])
    · have := hzk r hr
      simp [staleWith] at this
      exact absurd (this hcontra.2) (by simp [hk])
  · rw [h2.1, h3.1, h2.2.2.2 _ duk, h1.2.2.2 _ dhu, h1.2.2.2 _ dhk]
  · exact h3.2.2.1.trans (h2.2.2.1.trans h1.2.2.1)

/-- Witness for `cleanup_old_results_spec`: a three-row store, cutoffs 7
and 30 days before `now = 100`, batch size 1. -/
theorem cleanup_old_results_spec_witness :
    (∀ r ∈ (cleanup_old_results
        [⟨MonitorStatus.healthy, 0⟩, ⟨MonitorStatus.unhealthy, 0⟩,
         ⟨MonitorStatus.healthy, 95⟩] 100 7 30 1).2,
        ¬ (r.status = MonitorStatus.healthy ∧ r.timestamp < 100 - 7))
    ∧ (∀ r ∈ (cleanup_old_results
        [⟨MonitorStatus.healthy, 0⟩, ⟨MonitorStatus.unhealthy, 0⟩,
         ⟨MonitorStatus.healthy, 95⟩] 100 7 30 1).2,
        ¬ ((r.status = MonitorStatus.unhealthy ∨ r.status = MonitorStatus.unknown)
            ∧ r.timestamp < 100 - 30))
    ∧ (cleanup_old_results
        [⟨MonitorStatus.healthy, 0⟩, ⟨MonitorStatus.unhealthy, 0⟩,
         ⟨MonitorStatus.healthy, 95⟩] 100 7 30 1).1.total_deleted
        = (cleanup_old_results
            [⟨MonitorStatus.healthy, 0⟩, ⟨MonitorStatus.unhealthy, 0⟩,
             ⟨MonitorStatus.healthy, 95⟩] 100 7 30 1).1.healthy_deleted
          + (cleanup_old_results
              [⟨MonitorStatus.healthy, 0⟩, ⟨MonitorStatus.unhealthy, 0⟩,
               ⟨MonitorStatus.healthy, 95⟩] 100 7 30 1).1.unhealthy_deleted
    ∧ (cleanup_old_results
        [⟨MonitorStatus.healthy, 0⟩, ⟨MonitorStatus.unhealthy, 0⟩,
         ⟨MonitorStatus.healthy, 95⟩] 100 7 30 1).1.healthy_deleted
        = List.countP (staleWith (100 - 7) MonitorStatus.healthy)
            [⟨MonitorStatus.healthy, 0⟩, ⟨MonitorStatus.unhealthy, 0⟩,
             ⟨MonitorStatus.healthy, 95⟩]
    ∧ (cleanup_old_results
        [⟨MonitorStatus.healthy, 0⟩, ⟨MonitorStatus.unhealthy, 0⟩,
         ⟨MonitorStatus.healthy, 95⟩] 100 7 30 1).1.unhealthy_deleted
        = List.countP (staleWith (100 - 30) MonitorStatus.unhealthy)
            [⟨MonitorStatus.healthy, 0⟩, ⟨MonitorStatus.unhealthy, 0⟩,
             ⟨MonitorStatus.healthy, 95⟩]
          + List.countP (staleWith (100 - 30) MonitorStatus.unknown)
            [⟨MonitorStatus.healthy, 0⟩, ⟨MonitorStatus.unhealthy, 0⟩,
             ⟨MonitorStatus.healthy, 95⟩]
    ∧ (cleanup_old_results
        [⟨MonitorStatus.healthy, 0⟩, ⟨MonitorStatus.unhealthy, 0⟩,
         ⟨MonitorStatus.healthy, 95⟩] 100 7 30 1).2.Sublist
        [⟨MonitorStatus.healthy, 0⟩, ⟨MonitorStatus.unhealthy, 0⟩,
         ⟨MonitorStatus.healthy, 95⟩] :=
  cleanup_old_results_spec
    [⟨MonitorStatus.healthy, 0⟩, ⟨MonitorStatus.unhealthy, 0⟩,
     ⟨MonitorStatus.healthy, 95⟩] 100 7 30 1 (by decide)

/-- C5: when the cleanup preview (at the effective retention settings)
shows `total_to_delete / total_results > 90%` with `total_results > 0` and
the job is enabled, `execute` returns false and the stored results are
unchanged. -/
theorem data_cleanup_safety_cap (cfg : DataCleanupConfig)
    (store : List StoredResult) (now : Int) (hen : cfg.enabled = true)
    (htr : 0 < (get_cleanup_preview store now (effective_keep_healthy_days cfg)
        (effective_keep_unhealthy_days cfg)).total_results)
    (hcap : 9 * (get_cleanup_preview store now (effective_keep_healthy_days cfg)
          (effective_keep_unhealthy_days cfg)).total_results
        < 10 * (get_cleanup_preview store now (effective_keep_healthy_days cfg)
          (effective_keep_unhealthy_days cfg)).total_to_delete) :
    DataCleanupJob_execute cfg store now = (false, store) := by
  have htd : (get_cleanup_preview store now (effective_keep_healthy_days cfg)
      (effective_keep_unhealthy_days cfg)).total_to_delete ≠ 0 := by omega
  simp [DataCleanupJob_execute, hen, htd, htr, hcap]

/-- Witness for `data_cleanup_safety_cap`: a single stale healthy row, so
the preview would delete 100% of the data. -/
theorem data_cleanup_safety_cap_witness :
    DataCleanupJob_execute ⟨true, 1, 1⟩ [⟨MonitorStatus.healthy, 0⟩] 100
      = (false, [⟨MonitorStatus.healthy, 0⟩]) :=
  data_cleanup_safety_cap ⟨true, 1, 1⟩ [⟨MonitorStatus.healthy, 0⟩] 100
    rfl (by decide) (by decide)

theorem foldl_delete_monitor_spaces :
    ∀ (vs : List MonitorRec) (d : DbState),
      (vs.foldl (fun d m => (delete_monitor d m.id).2) d).spaces = d.spaces
  | [], _ => rfl
  | v :: vs, d => by
      rw [List.foldl_cons, foldl_delete_monitor_spaces vs]
      by_cases hv : d.monitors.any (fun m => m.id == v.id) = true <;>
        simp [delete_monitor, hv]

theorem foldl_delete_monitor_results_subset :
    ∀ (vs : List MonitorRec) (d : DbState),
      ∀ r ∈ (vs.foldl (fun d m => (delete_monitor d m.id).2) d).results,
        r ∈ d.results
  | [], _, _, hr => hr
  | v :: vs, d, r, hr => by
      rw [List.foldl_cons] at hr
      have hr1 := foldl_delete_monitor_results_subset vs _ r hr
      by_cases hv : d.monitors.any (fun m => m.id == v.id) = true
      · simp [delete_monitor, hv] at hr1
        exact hr1.1
      · simpa [delete_monitor, hv] using hr1

theorem foldl_delete_monitor_removes :
    ∀ (vs : List MonitorRec) (d : DbState) (mid : String),
      (∃ v ∈ vs, v.id = mid) → (∃ mon ∈ d.monitors, mon.id = mid) →
      ∀ r ∈ (vs.foldl (fun d m => (delete_monitor d m.id).2) d).results,
        r.monitor_id ≠ mid
  | [], _, _, hv, _, _, _ => by simp at hv
  | v :: vs, d, mid, hv, hmon, r, hr => by
      rw [List.foldl_cons] at hr
      by_cases hvid : v.id = mid
      · obtain ⟨mon, hmonMem, hmonId⟩ := hmon
        have hany : d.monitors.any (fun m => m.id == v.id) = true := by
          rw [List.any_eq_true]
          exact ⟨mon, hmonMem, by simp [hmonId, hvid]⟩
        have hr1 := foldl_delete_monitor_results_subset vs _ r hr
        simp [delete_monitor, hany] at hr1
        rw [← hvid]
        exact hr1.2
      · have hv' : ∃ v' ∈ vs, v'.id = mid := by
          obtain ⟨v', hv'Mem, hv'Id⟩ := hv
          rcases List.mem_cons.mp hv'Mem with hEq | hTail
          · exact absurd (hEq ▸ hv'Id) hvid
          · exact ⟨v', hTail, hv'Id⟩
        have hmon' : ∃ mon ∈ ((delete_monitor d v.id).2).monitors, mon.id = mid := by
          obtain ⟨mon, hmonMem, hmonId⟩ := hmon
          by_cases hany : d.monitors.any (fun m => m.id == v.id) = true
          · refine ⟨mon, ?_, hmonId⟩
            simp [delete_monitor, hany]
            exact ⟨hmonMem, by rw [hmonId]; exact fun h => hvid h.symm⟩
          · refine ⟨mon, ?_, hmonId⟩
            simpa [delete_monitor, hany] using hmonMem
        exact foldl_delete_monitor_removes vs _ mid hv' hmon' r hr

/-- C7: deleting a space through the `delete_space` command removes the
space, every monitor whose `space_id` references it, and every result
belonging to those monitors; afterwards `list_spaces` and `list_monitors`
no longer reference them. -/
theorem handler_delete_space_spec (db : DbState) (space_id : String)
    (hex : db.spaces.any (fun s => s.id == space_id) = true) :
    (handler_delete_space db space_id).1 = true
    ∧ (∀ s ∈ list_spaces (handler_delete_space db space_id).2, s.id ≠ space_id)
    ∧ (∀ m ∈ list_monitors (handler_delete_space db space_id).2, m.space_id ≠ space_id)
    ∧ (∀ r ∈ (handler_delete_space db space_id).2.results,
        ∀ m ∈ db.monitors, m.space_id = space_id → r.monitor_id ≠ m.id) := by
  have hsp1 : ((db.monitors.filter (fun m => m.space_id == space_id)).foldl
      (fun d m => (delete_monitor d m.id).2) db).spaces = db.spaces :=
    foldl_delete_monitor_spaces _ db
  have hex1 : ((db.monitors.filter (fun m => m.space_id == space_id)).foldl
      (fun d m => (delete_monitor d m.id).2) db).spaces.any
        (fun s => s.id == space_id) = true := by
    rw [hsp1]
    exact hex
  refine ⟨?_, ?_, ?_, ?_⟩
  · simp [handler_delete_space, delete_space, hex1]
  · intro s hs
    simp only [handler_delete_space, delete_space, hex1, if_pos, list_spaces] at hs
    simp at hs
    exact hs.2
  · intro m hm
    simp only [handler_delete_space, delete_space, hex1, if_pos, list_monitors] at hm
    simp at hm
    exact hm.2
  · intro r hr m hm hmsp
    simp only [handler_delete_space, delete_space, hex1, if_pos] at hr
    simp at hr
    have hr1 := hr.1
    have hvmem : m ∈ db.monitors.filter (fun m => m.space_id == space_id) := by
      rw [List.mem_filter]
      exact ⟨hm, by simp [hmsp]⟩
    exact foldl_delete_monitor_removes _ db m.id ⟨m, hvmem, rfl⟩ ⟨m, hm, rfl⟩ r hr1

/-- Witness for `handler_delete_space_spec`: two spaces, three monitors
(two in the deleted space), three results. -/
theorem handler_delete_space_spec_witness :
    (handler_delete_space
      ⟨[⟨"s1"⟩, ⟨"s2"⟩],
       [⟨"m1", "s1"⟩, ⟨"m2", "s1"⟩, ⟨"m3", "s2"⟩],
       [⟨"r1", "m1", "s1"⟩, ⟨"r2", "m2", "s1"⟩, ⟨"r3", "m3", "s2"⟩]⟩ "s1").1 = true
    ∧ (∀ s ∈ list_spaces (handler_delete_space
        ⟨[⟨"s1"⟩, ⟨"s2"⟩],
         [⟨"m1", "s1"⟩, ⟨"m2", "s1"⟩, ⟨"m3", "s2"⟩],
         [⟨"r1", "m1", "s1"⟩, ⟨"r2", "m2", "s1"⟩, ⟨"r3", "m3", "s2"⟩]⟩ "s1").2,
        s.id ≠ "s1")
    ∧ (∀ m ∈ list_monitors (handler_delete_space
        ⟨[⟨"s1"⟩, ⟨"s2"⟩],
         [⟨"m1", "s1"⟩, ⟨"m2", "s1"⟩, ⟨"m3", "s2"⟩],
         [⟨"r1", "m1", "s1"⟩, ⟨"r2", "m2", "s1"⟩, ⟨"r3", "m3", "s2"⟩]⟩ "s1").2,
        m.space_id ≠ "s1")
    ∧ (∀ r ∈ (handler_delete_space
        ⟨[⟨"s1"⟩, ⟨"s2"⟩],
         [⟨"m1", "s1"⟩, ⟨"m2", "s1"⟩, ⟨"m3", "s2"⟩],
         [⟨"r1", "m1", "s1"⟩, ⟨"r2", "m2", "s1"⟩, ⟨"r3", "m3", "s2"⟩]⟩ "s1").2.results,
        ∀ m ∈ (⟨[⟨"s1"⟩, ⟨"s2"⟩],
           [⟨"m1", "s1"⟩, ⟨"m2", "s1"⟩, ⟨"m3", "s2"⟩],
           [⟨"r1", "m1", "s1"⟩, ⟨"r2", "m2", "s1"⟩, ⟨"r3", "m3", "s2"⟩]⟩ : DbState).monitors,
          m.space_id = "s1" → r.monitor_id ≠ m.id) :=
  handler_delete_space_spec
    ⟨[⟨"s1"⟩, ⟨"s2"⟩],
     [⟨"m1", "s1"⟩, ⟨"m2", "s1"⟩, ⟨"m3", "s2"⟩],
     [⟨"r1", "m1", "s1"⟩, ⟨"r2", "m2", "s1"⟩, ⟨"r3", "m3", "s2"⟩]⟩ "s1" (by decide)

end WebMonitor
